import Mathlib

/-!
Verification of the hector_pose_estimation core estimator (tu-darmstadt-ros-pkg).

The definitions below are a shallow embedding of the C++ sources of the
hector_pose_estimation_core package, in particular

  * src/system/generic_quaternion_system_model.cpp
    (GenericQuaternionSystemModel::getDerivative, getSystemNoise, getStatusFlags),
  * src/measurements/gps.cpp (GPSModel, GPS::getVector, GPS::beforeUpdate),
  * src/measurements/height.cpp (HeightModel, HeightBaroCommon, Height),
  * include/hector_pose_estimation/measurement_update.h (the Update envelope).

Real-valued sensor and state quantities are embedded as rationals; a double
that can be NaN is embedded as an Option value, with none playing the role
of NaN.  The GlobalReference conversions and the EKF covariance propagation
live in files that are not part of the provided sources; those are modelled
from the spec and are marked as such in their doc comments.
-/

/-- The set of system status flags used by the estimator.  The C++ code keeps
these as bits of a SystemStatus bitmask (system_status.h is not among the
provided sources); since all operations used here are bitwise set and test
operations on distinct bits, the bitmask is embedded as a structure of
independent Booleans, one per flag that the embedded code touches. -/
structure SystemStatus where
  position_xy : Bool
  position_z : Bool
  velocity_xy : Bool
  velocity_z : Bool
  rollpitch : Bool
  rate_xy : Bool
  rate_z : Bool
deriving DecidableEq, Repr

/-- GenericQuaternionSystemModel::getStatusFlags
(generic_quaternion_system_model.cpp, lines 284-296): starts from the
measurement status and closes it under the implication chain; when the
rate system model is not compiled in (USE_RATE_SYSTEM_MODEL undefined,
which no provided source defines), both rate flags are added
unconditionally. -/
def getStatusFlags (useRateSystemModel : Bool) (measurementStatus : SystemStatus) : SystemStatus :=
  let flags := measurementStatus
  let flags := if flags.position_xy then { flags with velocity_xy := true } else flags
  let flags := if flags.position_z then { flags with velocity_z := true } else flags
  let flags := if flags.velocity_xy then { flags with rollpitch := true } else flags
  let flags := if flags.rollpitch then { flags with rate_xy := true } else flags
  if useRateSystemModel then flags else { flags with rate_xy := true, rate_z := true }

/-- The measurement update envelope Update_ of measurement_update.h embedded
for a model of measurement dimension n: the measurement vector y_, the
covariance override R_ and the has_covariance_ flag.  The C++ vector is
1-indexed; here index 0 of Fin n is the first component. -/
structure Update_ (n : ℕ) where
  y : Fin n → ℚ
  R : Fin n → Fin n → ℚ
  has_covariance : Bool

/-- Update_::setValue(double): writes only the first component of y_
(measurement_update.h, line 71: y_(1) = y). -/
def Update_.setValue (u : Update_ n) (v : ℚ) : Update_ n :=
  { u with y := fun i => if (i : ℕ) = 0 then v else u.y i }

/-- Update_::setValue(Vector): replaces the whole measurement vector
(measurement_update.h, line 70). -/
def Update_.setValueVector (u : Update_ n) (v : Fin n → ℚ) : Update_ n :=
  { u with y := v }

/-- Update_::setCovariance: stores R and raises the has_covariance_ flag
(measurement_update.h, line 73). -/
def Update_.setCovariance (u : Update_ n) (R : Fin n → Fin n → ℚ) : Update_ n :=
  { u with R := R, has_covariance := true }

/-- Update_::hasCovariance (measurement_update.h, line 80). -/
def Update_.hasCovariance (u : Update_ n) : Bool := u.has_covariance

/-- Update_::getCovariance (measurement_update.h, line 75). -/
def Update_.getCovariance (u : Update_ n) : Fin n → Fin n → ℚ := u.R

/-- Update_::getVector (measurement_update.h, line 74). -/
def Update_.getVector (u : Update_ n) : Fin n → ℚ := u.y

/-- The default constructor Update_(): has_covariance_ starts false; the
fresh contents of y_ and R_ before any assignment are abstracted as
parameters y0 and R0 (BFL allocates them without touching their entries
beyond construction). -/
def Update_.mkDefault (y0 : Fin n → ℚ) (R0 : Fin n → Fin n → ℚ) : Update_ n :=
  { y := y0, R := R0, has_covariance := false }

/-- The scalar constructor Update_(double y): default-constructs the members
and then calls setValue(y) (measurement_update.h, lines 62-67). -/
def Update_.mkScalar (y0 : Fin n → ℚ) (R0 : Fin n → Fin n → ℚ) (v : ℚ) : Update_ n :=
  (Update_.mkDefault y0 R0).setValue v

/-- A 3-vector of rationals (embedding the Eigen column vectors used for
rates, accelerations, positions and velocities). -/
structure Vec3 where
  x : ℚ
  y : ℚ
  z : ℚ
deriving DecidableEq, Repr

/-- A quaternion given by its four components, in the (w, x, y, z) order
used by the state vector. -/
structure Quat where
  w : ℚ
  x : ℚ
  y : ℚ
  z : ℚ
deriving DecidableEq, Repr

/-- The Hamilton product of two quaternions. -/
def qmul (a b : Quat) : Quat :=
  ⟨a.w * b.w - a.x * b.x - a.y * b.y - a.z * b.z,
   a.w * b.x + a.x * b.w + a.y * b.z - a.z * b.y,
   a.w * b.y - a.x * b.z + a.y * b.w + a.z * b.x,
   a.w * b.z + a.x * b.y - a.y * b.x + a.z * b.w⟩

/-- The conjugate of a quaternion. -/
def qconj (a : Quat) : Quat := ⟨a.w, -a.x, -a.y, -a.z⟩

/-- A pure quaternion [0, v] built from a 3-vector. -/
def pureQuat (v : Vec3) : Quat := ⟨0, v.x, v.y, v.z⟩

/-- The vector part of a quaternion. -/
def qvec (a : Quat) : Vec3 := ⟨a.x, a.y, a.z⟩

/-- Conjugation of a vector by a quaternion: the vector part of
q times [0, v] times conj q.  For a unit quaternion this is the
body-to-navigation rotation of v by q. -/
def qrot (q : Quat) (v : Vec3) : Vec3 := qvec (qmul (qmul q (pureQuat v)) (qconj q))

/-- The slice of the estimator state read by
GenericQuaternionSystemModel::getDerivative: the orientation quaternion,
the velocity, the current system status, and whether the orientation and
velocity sub-blocks are present in the state (getOrientationIndex and
getVelocityIndex nonnegative in the C++ code). -/
structure QState where
  q : Quat
  v : Vec3
  status : SystemStatus
  hasOrientation : Bool
  hasVelocity : Bool
deriving DecidableEq, Repr

/-- The components of the state-derivative vector written by
getDerivative (quaternion, position and velocity blocks; this system
model writes no rate block derivative). -/
structure StateDeriv where
  qw : ℚ
  qx : ℚ
  qy : ℚ
  qz : ℚ
  px : ℚ
  py : ℚ
  pz : ℚ
  vx : ℚ
  vy : ℚ
  vz : ℚ
deriving DecidableEq, Repr

/-- GenericQuaternionSystemModel::getDerivative
(generic_quaternion_system_model.cpp, lines 113-141).  The x_dot argument
is the derivative vector passed in by reference (components not written
by the function keep the value they had on entry); rate and acceleration
are the members prepared by prepareUpdate, gravity is the gravity_
parameter. -/
def getDerivative (xdot : StateDeriv) (state : QState) (rate acceleration : Vec3)
    (gravity : ℚ) : StateDeriv :=
  let q := state.q
  let v := state.v
  let xdot :=
    if state.hasOrientation then
      { xdot with
        qw := (1/2) * ((-rate.x) * q.x + (-rate.y) * q.y + (-rate.z) * q.z),
        qx := (1/2) * (rate.x * q.w + rate.z * q.y + (-rate.y) * q.z),
        qy := (1/2) * (rate.y * q.w + (-rate.z) * q.x + rate.x * q.z),
        qz := (1/2) * (rate.z * q.w + rate.y * q.x + (-rate.x) * q.y) }
    else xdot
  let xdot :=
    if state.status.velocity_xy && state.hasVelocity then
      { xdot with
        vx := (q.w * q.w + q.x * q.x - q.y * q.y - q.z * q.z) * acceleration.x +
              (2 * q.x * q.y - 2 * q.w * q.z) * acceleration.y +
              (2 * q.x * q.z + 2 * q.w * q.y) * acceleration.z,
        vy := (2 * q.x * q.y + 2 * q.w * q.z) * acceleration.x +
              (q.w * q.w - q.x * q.x + q.y * q.y - q.z * q.z) * acceleration.y +
              (2 * q.y * q.z - 2 * q.w * q.x) * acceleration.z }
    else xdot
  let xdot :=
    if state.status.velocity_z && state.hasVelocity then
      { xdot with
        vz := (2 * q.x * q.z - 2 * q.w * q.y) * acceleration.x +
              (2 * q.y * q.z + 2 * q.w * q.x) * acceleration.y +
              (q.w * q.w - q.x * q.x - q.y * q.y + q.z * q.z) * acceleration.z +
              gravity }
    else xdot
  let xdot :=
    if state.status.position_xy then { xdot with px := v.x, py := v.y } else xdot
  if state.status.position_z then { xdot with pz := v.z } else xdot

/-- The diagonal entries of the system noise matrix Q touched by
GenericQuaternionSystemModel::getSystemNoise: the quaternion, rate,
position and velocity blocks (all other entries of the symmetric matrix
are never written by this function). -/
structure NoiseVariance where
  qw : ℚ
  qx : ℚ
  qy : ℚ
  qz : ℚ
  rx : ℚ
  ry : ℚ
  rz : ℚ
  px : ℚ
  py : ℚ
  pz : ℚ
  vx : ℚ
  vy : ℚ
  vz : ℚ
deriving DecidableEq, Repr

/-- The noise standard-deviation parameters of
GenericQuaternionSystemModel. -/
structure NoiseParams where
  angular_acceleration_stddev : ℚ
  rate_stddev : ℚ
  acceleration_stddev : ℚ
  velocity_stddev : ℚ
deriving DecidableEq, Repr

/-- The slice of the estimator state read by getSystemNoise: the
orientation quaternion and which sub-blocks are present. -/
structure NoiseState where
  q : Quat
  hasOrientation : Bool
  hasRate : Bool
  hasPosition : Bool
deriving DecidableEq, Repr

/-- GenericQuaternionSystemModel::getSystemNoise
(generic_quaternion_system_model.cpp, lines 143-165).  When init is true
the rate, position and velocity diagonal blocks are seeded (the velocity
seed is gated on getRateIndex in the source, line 150, mirrored here);
in both cases the quaternion diagonal entries are recomputed from the
current quaternion, but only when rate_stddev is positive and the
orientation block is present. -/
def getSystemNoise (Q : NoiseVariance) (state : NoiseState) (p : NoiseParams)
    (init : Bool) : NoiseVariance :=
  let Q :=
    if init then
      let Q :=
        if state.hasRate then
          { Q with rx := p.angular_acceleration_stddev^2,
                   ry := p.angular_acceleration_stddev^2,
                   rz := p.angular_acceleration_stddev^2 }
        else Q
      let Q :=
        if state.hasPosition then
          { Q with px := p.velocity_stddev^2,
                   py := p.velocity_stddev^2,
                   pz := p.velocity_stddev^2 }
        else Q
      let Q :=
        if state.hasRate then
          { Q with vx := p.acceleration_stddev^2,
                   vy := p.acceleration_stddev^2,
                   vz := p.acceleration_stddev^2 }
        else Q
      Q
    else Q
  if 0 < p.rate_stddev ∧ state.hasOrientation = true then
    let q := state.q
    let rate_variance_4 := (1/4) * p.rate_stddev^2
    { Q with qw := rate_variance_4 * (q.x * q.x + q.y * q.y + q.z * q.z),
             qx := rate_variance_4 * (q.w * q.w + q.y * q.y + q.z * q.z),
             qy := rate_variance_4 * (q.w * q.w + q.x * q.x + q.z * q.z),
             qz := rate_variance_4 * (q.w * q.w + q.x * q.x + q.y * q.y) }
  else Q

/-- Modelled from the spec: the GlobalReference anchor
(global_reference.h and its implementation are not among the provided
sources; only its callers are).  Per spec section 4.2 it holds the
reference latitude, longitude, altitude and heading and converts between
the local Cartesian frame and geodetic coordinates by a local-tangent-plane
(equirectangular) conversion around the anchor.  The conversion scale
factors radiusNorth and radiusEast are held as fixed fields, and the
heading enters through its cosine and sine. -/
structure GlobalReference where
  latitude : ℚ
  longitude : ℚ
  altitude : ℚ
  radiusNorth : ℚ
  radiusEast : ℚ
  headingCos : ℚ
  headingSin : ℚ
deriving DecidableEq, Repr

/-- Modelled from the spec: setPosition overwrites the anchor latitude and
longitude. -/
def GlobalReference.setPosition (r : GlobalReference) (lat lon : ℚ) : GlobalReference :=
  { r with latitude := lat, longitude := lon }

/-- Modelled from the spec: setAltitude overwrites the anchor altitude. -/
def GlobalReference.setAltitude (r : GlobalReference) (alt : ℚ) : GlobalReference :=
  { r with altitude := alt }

/-- Modelled from the spec: fromWGS84 maps geodetic coordinates to local
coordinates by the equirectangular conversion around the anchor. -/
def GlobalReference.fromWGS84 (r : GlobalReference) (lat lon : ℚ) : ℚ × ℚ :=
  ((lat - r.latitude) * r.radiusNorth, (lon - r.longitude) * r.radiusEast)

/-- Modelled from the spec: toWGS84 maps local coordinates back to geodetic
coordinates, inverse of fromWGS84 around the anchor. -/
def GlobalReference.toWGS84 (r : GlobalReference) (x y : ℚ) : ℚ × ℚ :=
  (r.latitude + x / r.radiusNorth, r.longitude + y / r.radiusEast)

/-- Modelled from the spec: fromNorthEast rotates a north-east velocity
pair into the local frame using the anchor heading. -/
def GlobalReference.fromNorthEast (r : GlobalReference) (vN vE : ℚ) : ℚ × ℚ :=
  (r.headingCos * vN + r.headingSin * vE, r.headingSin * vN - r.headingCos * vE)

/-- The slice of PoseEstimation read by the GPS and height measurements:
the process-wide GlobalReference object and the position components of
the state vector. -/
structure EstimatorState where
  globalRef : GlobalReference
  posX : ℚ
  posY : ℚ
  posZ : ℚ
deriving DecidableEq, Repr

/-- A GPS fix (GPSUpdate of gps.h): geodetic position and north-east
velocity. -/
structure GPSUpdate where
  latitude : ℚ
  longitude : ℚ
  velocity_north : ℚ
  velocity_east : ℚ
deriving DecidableEq, Repr

/-- The persistent state of the GPS measurement (gps.cpp): the reference_
pointer is either null or points at the single estimator-owned
GlobalReference (the only non-null value ever assigned to it, gps.cpp
line 108), so it is embedded as the Boolean holdsReference. -/
structure GPSMeas where
  holdsReference : Bool
deriving DecidableEq, Repr

/-- GPS::onReset (gps.cpp, lines 85-87): drops the reference pointer. -/
def GPS.onReset (gps : GPSMeas) : GPSMeas := { gps with holdsReference := false }

/-- The result of GPS::beforeUpdate: the mutated measurement state, the
mutated estimator (its global reference may have been re-anchored) and
the returned Boolean. -/
structure GPSBeforeUpdateResult where
  gps : GPSMeas
  est : EstimatorState
  ret : Bool
deriving DecidableEq, Repr

/-- GPS::beforeUpdate (gps.cpp, lines 102-120): if the GPS has timed out
the reference pointer is dropped; if the pointer then differs from the
estimator global reference, the anchor is set to the fix, the current
state position is projected backward through the new fix by toWGS84 of
its negation, and the anchor is overwritten with the result; the function
returns true on every path.  The staleness test timedout() lives in the
measurement base class outside the provided sources and enters as the
Boolean input timedout. -/
def GPS.beforeUpdate (timedout : Bool) (gps : GPSMeas) (est : EstimatorState)
    (u : GPSUpdate) : GPSBeforeUpdateResult :=
  let gps := if timedout then { gps with holdsReference := false } else gps
  if gps.holdsReference = false then
    let ref := est.globalRef.setPosition u.latitude u.longitude
    let nll := ref.toWGS84 (-est.posX) (-est.posY)
    let ref := ref.setPosition nll.1 nll.2
    ⟨{ gps with holdsReference := true }, { est with globalRef := ref }, true⟩
  else
    ⟨gps, est, true⟩

/-- GPS::getVector (gps.cpp, lines 89-100): with a null reference pointer
all four components are set to 0.0/0.0, i.e. NaN, embedded as none;
otherwise the fix is converted through the global reference. -/
def GPS.getVector (gps : GPSMeas) (est : EstimatorState) (u : GPSUpdate) :
    Option ℚ × Option ℚ × Option ℚ × Option ℚ :=
  if gps.holdsReference = false then (none, none, none, none)
  else
    let xy := est.globalRef.fromWGS84 u.latitude u.longitude
    let v := est.globalRef.fromNorthEast u.velocity_north u.velocity_east
    (some xy.1, some xy.2, some v.1, some v.2)

/-- The persistent state of HeightBaroCommon (height.cpp, lines 70-81):
the auto_elevation parameter and the flag recording whether the elevation
offset has already been solved (elevation_ flag in the source; it is the
only guard of resetElevation, the auto_elevation parameter is not
consulted by the functions in height.cpp). -/
structure HeightBaro where
  auto_elevation : Bool
  elevationSet : Bool
deriving DecidableEq, Repr

/-- HeightBaroCommon::onReset (height.cpp, lines 79-81): the stored
elevation will be solved afresh on the next sample. -/
def HeightBaroCommon.onReset (hb : HeightBaro) : HeightBaro :=
  { hb with elevationSet := false }

/-- HeightBaroCommon::resetElevation (height.cpp, lines 83-92): on the
first sample after construction or onReset, the global reference altitude
is set to the raw altitude minus the predicted state z, and the flag is
raised; the current reference altitude is returned in every case. -/
def HeightBaroCommon.resetElevation (hb : HeightBaro) (est : EstimatorState)
    (altitude : ℚ) : HeightBaro × EstimatorState × ℚ :=
  if hb.elevationSet = false then
    let est := { est with globalRef := est.globalRef.setAltitude (altitude - est.posZ) }
    ({ hb with elevationSet := true }, est, est.globalRef.altitude)
  else
    (hb, est, est.globalRef.altitude)

/-- HeightModel::ExpectedValueGet (height.cpp, lines 59-62): the predicted
measurement is the state z plus the stored elevation. -/
def HeightModel.ExpectedValueGet (elevation z : ℚ) : ℚ := z + elevation

/-- The state threaded through a height measurement sequence: the
HeightBaroCommon flags, the estimator, and the elevation_ member of the
HeightModel (written through setElevation in Height::beforeUpdate). -/
structure HeightState where
  hb : HeightBaro
  est : EstimatorState
  elevation : ℚ
deriving DecidableEq, Repr

/-- Height::beforeUpdate (height.cpp, lines 107-110): stores the result of
resetElevation on the first component of the update vector as the model
elevation and returns true. -/
def Height.beforeUpdate (s : HeightState) (raw : ℚ) : HeightState × Bool :=
  let r := HeightBaroCommon.resetElevation s.hb s.est raw
  (⟨r.1, r.2.1, r.2.2⟩, true)

/-- One later height sample: the filter state z may have moved to a new
value (second component) before the raw sample (first component) is
processed by Height::beforeUpdate. -/
def heightStep (s : HeightState) (sample : ℚ × ℚ) : HeightState :=
  (Height.beforeUpdate { s with est := { s.est with posZ := sample.2 } } sample.1).1

open Matrix

/-- Modelled from the spec: the innovation covariance C P Ct + R of the
EKF correct step (spec section 4.5; the orchestration loop and the BFL
extended Kalman filter it delegates to are not among the provided
sources). -/
noncomputable def innovationCov {n m : ℕ} (P : Matrix (Fin n) (Fin n) ℝ)
    (C : Matrix (Fin m) (Fin n) ℝ) (R : Matrix (Fin m) (Fin m) ℝ) :
    Matrix (Fin m) (Fin m) ℝ :=
  C * P * Cᵀ + R

/-- Modelled from the spec: the Kalman gain K = P Ct (C P Ct + R)⁻¹ of the
correct step (spec section 4.5). -/
noncomputable def kalmanGain {n m : ℕ} (P : Matrix (Fin n) (Fin n) ℝ)
    (C : Matrix (Fin m) (Fin n) ℝ) (R : Matrix (Fin m) (Fin m) ℝ) :
    Matrix (Fin n) (Fin m) ℝ :=
  P * Cᵀ * (innovationCov P C R)⁻¹

open scoped Classical in
/-- Modelled from the spec: the covariance update P := (I - K C) P of the
correct step; per spec section 4.5 and section 7 a singular innovation
covariance aborts only that correction and leaves the state unchanged. -/
noncomputable def correctCov {n m : ℕ} (P : Matrix (Fin n) (Fin n) ℝ)
    (C : Matrix (Fin m) (Fin n) ℝ) (R : Matrix (Fin m) (Fin m) ℝ) :
    Matrix (Fin n) (Fin n) ℝ :=
  if IsUnit (innovationCov P C R).det then (1 - kalmanGain P C R * C) * P else P

/-- Modelled from the spec: the covariance propagation of the predict
step, P := A P At + Q dt (spec section 4.3). -/
noncomputable def predictCov {n : ℕ} (A P Q : Matrix (Fin n) (Fin n) ℝ) (dt : ℝ) :
    Matrix (Fin n) (Fin n) ℝ :=
  A * P * Aᵀ + dt • Q

/-- Modelled from the spec: quaternion renormalization performed after
every predict integration and after every correction (spec sections 4.3
and 4.5). -/
noncomputable def renormalize (q : Quaternion ℝ) : Quaternion ℝ := ‖q‖⁻¹ • q

/-- One cycle of the orchestration loop as it affects the covariance and
the orientation quaternion: a predict step carries the Jacobian A, the
process noise Q, the time step dt and the raw integrated quaternion
before renormalization; a correct step carries the measurement Jacobian
C, the measurement noise R and the raw corrected quaternion.  The mean
dynamics that produce the raw quaternion are abstracted as the qraw
field. -/
inductive FilterStep (n m : ℕ) where
  | predict (A Q : Matrix (Fin n) (Fin n) ℝ) (dt : ℝ) (qraw : Quaternion ℝ)
  | correct (C : Matrix (Fin m) (Fin n) ℝ) (R : Matrix (Fin m) (Fin m) ℝ) (qraw : Quaternion ℝ)

/-- Modelled from the spec: the effect of one predict or correct cycle on
the covariance and orientation quaternion. -/
noncomputable def applyStep {n m : ℕ} (st : Matrix (Fin n) (Fin n) ℝ × Quaternion ℝ)
    (s : FilterStep n m) : Matrix (Fin n) (Fin n) ℝ × Quaternion ℝ :=
  match s with
  | .predict A Q dt qraw => (predictCov A st.1 Q dt, renormalize qraw)
  | .correct C R qraw => (correctCov st.1 C R, renormalize qraw)

/-- Modelled from the spec: a whole predict and correct sequence folded
over an initial covariance and quaternion. -/
noncomputable def runFilter {n m : ℕ} (steps : List (FilterStep n m))
    (init : Matrix (Fin n) (Fin n) ℝ × Quaternion ℝ) :
    Matrix (Fin n) (Fin n) ℝ × Quaternion ℝ :=
  steps.foldl applyStep init

/-- Well-formedness of one cycle: process and measurement noise are
positive semidefinite, the time step is nonnegative and the raw
quaternion produced by the mean update is nonzero. -/
def stepOK {n m : ℕ} : FilterStep n m → Prop
  | .predict _ Q dt qraw => Q.PosSemidef ∧ 0 ≤ dt ∧ qraw ≠ 0
  | .correct _ R qraw => R.PosSemidef ∧ qraw ≠ 0

/-- Claim C6: for every measurement-status bitmask, the system status
returned by getStatusFlags satisfies the implication chain: XY-position
active implies XY-velocity active, Z-position active implies Z-velocity
active, XY-velocity active implies roll-pitch active, and roll-pitch
active implies XY-rate active.  Implication of Booleans is stated as the
Boolean order. -/
theorem getStatusFlags_implication_chain :
    ∀ (useRateSystemModel : Bool) (ms : SystemStatus),
      (getStatusFlags useRateSystemModel ms).position_xy ≤
        (getStatusFlags useRateSystemModel ms).velocity_xy ∧
      (getStatusFlags useRateSystemModel ms).position_z ≤
        (getStatusFlags useRateSystemModel ms).velocity_z ∧
      (getStatusFlags useRateSystemModel ms).velocity_xy ≤
        (getStatusFlags useRateSystemModel ms).rollpitch ∧
      (getStatusFlags useRateSystemModel ms).rollpitch ≤
        (getStatusFlags useRateSystemModel ms).rate_xy := by
  intro u ms
  obtain ⟨a, b, c, d, e, f, g⟩ := ms
  revert u a b c d e f g
  decide

/-- Claim C9: for a measurement dimension greater than 1, constructing an
Update_ from a scalar or calling setValue(double) writes only the first
component of the measurement vector and leaves every other component
unchanged; hasCovariance is false unless setCovariance has been called,
after which getCovariance returns exactly the covariance that was set. -/
theorem update_scalar_writes_first_component_only {n : ℕ} (hn : 1 < n)
    (y0 : Fin n → ℚ) (R0 : Fin n → Fin n → ℚ) (v : ℚ) (u : Update_ n)
    (R : Fin n → Fin n → ℚ) :
    (∀ i : Fin n, (Update_.mkScalar y0 R0 v).y i = if (i : ℕ) = 0 then v else y0 i) ∧
    (∀ i : Fin n, (u.setValue v).y i = if (i : ℕ) = 0 then v else u.y i) ∧
    (Update_.mkDefault y0 R0).hasCovariance = false ∧
    (Update_.mkScalar y0 R0 v).hasCovariance = false ∧
    (u.setCovariance R).hasCovariance = true ∧
    (u.setCovariance R).getCovariance = R := by
  refine ⟨fun i => rfl, fun i => rfl, rfl, rfl, rfl, rfl⟩

/-- Witness for C9 at dimension 2 with concrete data. -/
theorem update_scalar_writes_first_component_only_witness :
    (1 : ℕ) < 2 ∧
    ((∀ i : Fin 2, (@Update_.mkScalar 2 (fun _ => 7) (fun _ _ => 0) 5).y i =
        if (i : ℕ) = 0 then 5 else (fun _ => (7:ℚ)) i) ∧
    (∀ i : Fin 2, ((@Update_.mkDefault 2 (fun _ => 7) (fun _ _ => 0)).setValue 5).y i =
        if (i : ℕ) = 0 then 5 else (@Update_.mkDefault 2 (fun _ => 7) (fun _ _ => 0)).y i) ∧
    (@Update_.mkDefault 2 (fun _ => 7) (fun _ _ => 0)).hasCovariance = false ∧
    (@Update_.mkScalar 2 (fun _ => 7) (fun _ _ => 0) 5).hasCovariance = false ∧
    ((@Update_.mkDefault 2 (fun _ => 7) (fun _ _ => 0)).setCovariance (fun _ _ => 3)).hasCovariance = true ∧
    ((@Update_.mkDefault 2 (fun _ => 7) (fun _ _ => 0)).setCovariance (fun _ _ => 3)).getCovariance = (fun _ _ => 3)) :=
  ⟨by omega, update_scalar_writes_first_component_only (by omega)
    (fun _ => 7) (fun _ _ => 0) 5 (@Update_.mkDefault 2 (fun _ => 7) (fun _ _ => 0)) (fun _ _ => 3)⟩

set_option maxHeartbeats 1000000 in
/-- Claim C4: for every state (with orientation and velocity blocks
present), the derivative produced by getDerivative satisfies the gating
rules: the quaternion derivative is one half of the Hamilton product of q
with the pure quaternion [0, rate]; the velocity derivative is the body
acceleration conjugated into the navigation frame by the current
quaternion, with gravity added to the z component, exactly on the axes
whose velocity estimation flag is active in the system status (inactive
axes keep the incoming derivative value); and the position derivative
equals the velocity exactly when the corresponding position estimation
flag is active. -/
theorem getDerivative_gating (xdot : StateDeriv) (state : QState)
    (rate acceleration : Vec3) (gravity : ℚ)
    (ho : state.hasOrientation = true) (hv : state.hasVelocity = true) :
    (getDerivative xdot state rate acceleration gravity).qw
        = (1/2) * (qmul state.q (pureQuat rate)).w ∧
    (getDerivative xdot state rate acceleration gravity).qx
        = (1/2) * (qmul state.q (pureQuat rate)).x ∧
    (getDerivative xdot state rate acceleration gravity).qy
        = (1/2) * (qmul state.q (pureQuat rate)).y ∧
    (getDerivative xdot state rate acceleration gravity).qz
        = (1/2) * (qmul state.q (pureQuat rate)).z ∧
    (getDerivative xdot state rate acceleration gravity).vx
        = cond state.status.velocity_xy ((qrot state.q acceleration).x) xdot.vx ∧
    (getDerivative xdot state rate acceleration gravity).vy
        = cond state.status.velocity_xy ((qrot state.q acceleration).y) xdot.vy ∧
    (getDerivative xdot state rate acceleration gravity).vz
        = cond state.status.velocity_z ((qrot state.q acceleration).z + gravity) xdot.vz ∧
    (getDerivative xdot state rate acceleration gravity).px
        = cond state.status.position_xy state.v.x xdot.px ∧
    (getDerivative xdot state rate acceleration gravity).py
        = cond state.status.position_xy state.v.y xdot.py ∧
    (getDerivative xdot state rate acceleration gravity).pz
        = cond state.status.position_z state.v.z xdot.pz := by
  obtain ⟨q, v, st, hOr, hVel⟩ := state
  subst ho hv
  obtain ⟨pxy, pz, vxy, vz, rp, rxy, rz⟩ := st
  simp only [getDerivative, qrot, qmul, qconj, pureQuat, qvec]
  cases pxy <;> cases pz <;> cases vxy <;> cases vz <;>
    refine ⟨?_, ?_, ?_, ?_, ?_, ?_, ?_, ?_, ?_, ?_⟩ <;> simp <;> ring

/-- Witness for C4 at a concrete state. -/
theorem getDerivative_gating_witness :
    (QState.mk ⟨1, 0, 0, 0⟩ ⟨4, 5, 6⟩ ⟨true, true, true, true, true, true, true⟩
        true true).hasOrientation = true ∧
    (QState.mk ⟨1, 0, 0, 0⟩ ⟨4, 5, 6⟩ ⟨true, true, true, true, true, true, true⟩
        true true).hasVelocity = true ∧
    ((getDerivative ⟨0, 0, 0, 0, 0, 0, 0, 0, 0, 0⟩
        (QState.mk ⟨1, 0, 0, 0⟩ ⟨4, 5, 6⟩ ⟨true, true, true, true, true, true, true⟩ true true)
        ⟨1, 2, 3⟩ ⟨7, 8, 9⟩ (-981/100)).qw
        = (1/2) * (qmul ⟨1, 0, 0, 0⟩ (pureQuat ⟨1, 2, 3⟩)).w) := by
  refine ⟨rfl, rfl, ?_⟩
  exact (getDerivative_gating ⟨0, 0, 0, 0, 0, 0, 0, 0, 0, 0⟩
    (QState.mk ⟨1, 0, 0, 0⟩ ⟨4, 5, 6⟩ ⟨true, true, true, true, true, true, true⟩ true true)
    ⟨1, 2, 3⟩ ⟨7, 8, 9⟩ (-981/100) rfl rfl).1

/-- Counterexample to claim C5 as stated: with rate_stddev = 0 and init
false, the orientation diagonal entries are NOT refreshed to
0.25 times rate_stddev squared times the sums of squares of quaternion
components (which would be 0); the source guards the refresh with
rate_stddev greater than 0 and leaves the previous entry (here 1)
unchanged. -/
theorem getSystemNoise_zero_rate_stddev_cex :
    (getSystemNoise ⟨1, 1, 1, 1, 1, 1, 1, 1, 1, 1, 1, 1, 1⟩
        ⟨⟨1, 0, 0, 0⟩, true, true, true⟩ ⟨1, 0, 1, 1⟩ false).qw = 1 ∧
    (1 : ℚ) ≠ (1/4) * (0:ℚ)^2 *
        ((0:ℚ) * 0 + (0:ℚ) * 0 + (0:ℚ) * 0) := by
  constructor
  · simp [getSystemNoise]
  · norm_num

/-- Claim C5 (amended): getSystemNoise with all relevant state blocks
present and rate_stddev positive: when init is true the full diagonal is
seeded (rate block from the angular-acceleration stddev squared, position
block from the velocity stddev squared, velocity block from the
acceleration stddev squared); when init is false those entries are left
unchanged; in both cases the orientation diagonal entries are refreshed as
0.25 times rate_stddev squared times sums of squares of the current
quaternion components.  The amendment relative to the frozen claim is the
guard: the refresh happens only when rate_stddev is positive (and the
orientation block present); with rate_stddev = 0 the orientation entries
too are left unchanged. -/
theorem getSystemNoise_spec (Q : NoiseVariance) (st : NoiseState) (p : NoiseParams)
    (init : Bool) (hr : st.hasRate = true) (hp : st.hasPosition = true)
    (ho : st.hasOrientation = true) (hs : 0 < p.rate_stddev) :
    (getSystemNoise Q st p init).rx = cond init (p.angular_acceleration_stddev^2) Q.rx ∧
    (getSystemNoise Q st p init).ry = cond init (p.angular_acceleration_stddev^2) Q.ry ∧
    (getSystemNoise Q st p init).rz = cond init (p.angular_acceleration_stddev^2) Q.rz ∧
    (getSystemNoise Q st p init).px = cond init (p.velocity_stddev^2) Q.px ∧
    (getSystemNoise Q st p init).py = cond init (p.velocity_stddev^2) Q.py ∧
    (getSystemNoise Q st p init).pz = cond init (p.velocity_stddev^2) Q.pz ∧
    (getSystemNoise Q st p init).vx = cond init (p.acceleration_stddev^2) Q.vx ∧
    (getSystemNoise Q st p init).vy = cond init (p.acceleration_stddev^2) Q.vy ∧
    (getSystemNoise Q st p init).vz = cond init (p.acceleration_stddev^2) Q.vz ∧
    (getSystemNoise Q st p init).qw
        = (1/4) * p.rate_stddev^2 * (st.q.x * st.q.x + st.q.y * st.q.y + st.q.z * st.q.z) ∧
    (getSystemNoise Q st p init).qx
        = (1/4) * p.rate_stddev^2 * (st.q.w * st.q.w + st.q.y * st.q.y + st.q.z * st.q.z) ∧
    (getSystemNoise Q st p init).qy
        = (1/4) * p.rate_stddev^2 * (st.q.w * st.q.w + st.q.x * st.q.x + st.q.z * st.q.z) ∧
    (getSystemNoise Q st p init).qz
        = (1/4) * p.rate_stddev^2 * (st.q.w * st.q.w + st.q.x * st.q.x + st.q.y * st.q.y) := by
  obtain ⟨q, hO, hR, hP⟩ := st
  simp only at hr hp ho
  subst hr hp ho
  cases init <;> simp [getSystemNoise, hs]

/-- Witness for C5 at concrete inputs. -/
theorem getSystemNoise_spec_witness :
    (NoiseState.mk ⟨2, 3, 4, 5⟩ true true true).hasRate = true ∧
    (NoiseState.mk ⟨2, 3, 4, 5⟩ true true true).hasPosition = true ∧
    (NoiseState.mk ⟨2, 3, 4, 5⟩ true true true).hasOrientation = true ∧
    (0 : ℚ) < (NoiseParams.mk 6 2 7 8).rate_stddev ∧
    (getSystemNoise ⟨1, 1, 1, 1, 1, 1, 1, 1, 1, 1, 1, 1, 1⟩
        (NoiseState.mk ⟨2, 3, 4, 5⟩ true true true) (NoiseParams.mk 6 2 7 8) true).qw
      = (1/4) * (2:ℚ)^2 * ((3:ℚ) * 3 + (4:ℚ) * 4 + (5:ℚ) * 5) := by
  refine ⟨rfl, rfl, rfl, by norm_num, ?_⟩
  exact (getSystemNoise_spec ⟨1, 1, 1, 1, 1, 1, 1, 1, 1, 1, 1, 1, 1⟩
    (NoiseState.mk ⟨2, 3, 4, 5⟩ true true true) (NoiseParams.mk 6 2 7 8) true
    rfl rfl rfl (by norm_num)).2.2.2.2.2.2.2.2.2.1

/-- Claim C7: for every GPSUpdate, while no reference position exists the
GPS measurement vector returned by getVector has NaN (none) in all four
components: local x, local y, velocity x and velocity y. -/
theorem gps_getVector_nan_without_reference :
    ∀ (est : EstimatorState) (u : GPSUpdate),
      GPS.getVector ⟨false⟩ est u = (none, none, none, none) :=
  fun _ _ => rfl

/-- Counterexample to claim C2 as stated: at a concrete correction with no
reference position (null reference pointer, not timed out),
GPS::beforeUpdate does NOT return false; it acquires the reference from
the incoming fix and returns true. -/
theorem gps_beforeUpdate_no_reference_returns_true_cex :
    (GPSMeas.mk false).holdsReference = false ∧
    (GPS.beforeUpdate false (GPSMeas.mk false)
        (EstimatorState.mk ⟨0, 0, 0, 1, 1, 1, 0⟩ 0 0 0) (GPSUpdate.mk 1 2 0 0)).ret ≠ false := by
  decide

/-- Claim C2 (amended): GPS::beforeUpdate returns true on every input; a
GPS correction attempted while no reference position exists is not
skipped through a false return.  Instead the model acquires and anchors
the global reference from the incoming fix (so the correction proceeds);
the guard for a missing reference lives in getVector, which returns NaN
placeholders, not in beforeUpdate. -/
theorem gps_beforeUpdate_always_returns_true :
    ∀ (timedout : Bool) (gps : GPSMeas) (est : EstimatorState) (u : GPSUpdate),
      (GPS.beforeUpdate timedout gps est u).ret = true := by
  intro t gps est u
  obtain ⟨b⟩ := gps
  cases t <;> cases b <;> rfl

/-- Counterexample to claim C1 as stated: concrete re-anchoring scenario.
Before the outage the anchor is (0, 0) with unit scale factors and the
filter state position is (1, 2), which maps to geodetic (1, 2).  A fix at
the different geodetic position (10, 20) arrives after a timeout and
re-anchors the reference.  Converting the pre-existing local (1, 2) with
toWGS84 afterwards yields the NEW fix (10, 20), not the pre-outage
geodetic (1, 2) that the claim requires. -/
theorem gps_reanchor_cex :
    (EstimatorState.mk ⟨0, 0, 0, 1, 1, 1, 0⟩ 1 2 0).globalRef.toWGS84 1 2 = ((1 : ℚ), (2 : ℚ)) ∧
    ((GPS.beforeUpdate true (GPSMeas.mk true) (EstimatorState.mk ⟨0, 0, 0, 1, 1, 1, 0⟩ 1 2 0)
        (GPSUpdate.mk 10 20 0 0)).est.globalRef.toWGS84 1 2) = ((10 : ℚ), (20 : ℚ)) ∧
    ((10 : ℚ), (20 : ℚ)) ≠ ((1 : ℚ), (2 : ℚ)) := by
  refine ⟨?_, ?_, ?_⟩
  · norm_num [GlobalReference.toWGS84]
  · norm_num [GPS.beforeUpdate, GlobalReference.toWGS84, GlobalReference.setPosition]
  · norm_num [Prod.ext_iff]

/-- Claim C1 (amended): re-anchoring on GPS reacquisition preserves the
filter local-frame pose in the sense that the new anchor is chosen by
projecting the current state position backward through the new fix: after
GPS::beforeUpdate re-anchors on a fix (on first acquisition or after a
timeout), converting the pre-existing local state position (x0, y0) with
toWGS84 yields the NEW fix (lat1, lon1) (not the pre-outage geodetic
position), and the local state coordinates themselves are not reset to
zero: the state position is left untouched. -/
theorem gps_reanchor_maps_current_local_to_new_fix
    (timedout : Bool) (gps : GPSMeas) (est : EstimatorState) (u : GPSUpdate)
    (h : timedout = true ∨ gps.holdsReference = false) :
    ((GPS.beforeUpdate timedout gps est u).est.globalRef.toWGS84 est.posX est.posY).1
        = u.latitude ∧
    ((GPS.beforeUpdate timedout gps est u).est.globalRef.toWGS84 est.posX est.posY).2
        = u.longitude ∧
    (GPS.beforeUpdate timedout gps est u).est.posX = est.posX ∧
    (GPS.beforeUpdate timedout gps est u).est.posY = est.posY := by
  have hb : (if timedout then { gps with holdsReference := false } else gps).holdsReference
      = false := by
    rcases h with h | h
    · subst h; rfl
    · cases timedout <;> simpa using h
  unfold GPS.beforeUpdate
  rw [if_pos hb]
  refine ⟨?_, ?_, rfl, rfl⟩ <;>
    simp [GlobalReference.toWGS84, GlobalReference.setPosition] <;> ring

/-- Witness for the amended C1 at a concrete reacquisition input. -/
theorem gps_reanchor_maps_current_local_to_new_fix_witness :
    ((true : Bool) = true ∨ (GPSMeas.mk true).holdsReference = false) ∧
    (((GPS.beforeUpdate true (GPSMeas.mk true) (EstimatorState.mk ⟨0, 0, 0, 1, 1, 1, 0⟩ 1 2 0)
        (GPSUpdate.mk 10 20 0 0)).est.globalRef.toWGS84 1 2).1 = (10 : ℚ) ∧
     ((GPS.beforeUpdate true (GPSMeas.mk true) (EstimatorState.mk ⟨0, 0, 0, 1, 1, 1, 0⟩ 1 2 0)
        (GPSUpdate.mk 10 20 0 0)).est.globalRef.toWGS84 1 2).2 = (20 : ℚ) ∧
     (GPS.beforeUpdate true (GPSMeas.mk true) (EstimatorState.mk ⟨0, 0, 0, 1, 1, 1, 0⟩ 1 2 0)
        (GPSUpdate.mk 10 20 0 0)).est.posX = (1 : ℚ) ∧
     (GPS.beforeUpdate true (GPSMeas.mk true) (EstimatorState.mk ⟨0, 0, 0, 1, 1, 1, 0⟩ 1 2 0)
        (GPSUpdate.mk 10 20 0 0)).est.posY = (2 : ℚ)) :=
  ⟨Or.inl rfl, gps_reanchor_maps_current_local_to_new_fix true (GPSMeas.mk true)
    (EstimatorState.mk ⟨0, 0, 0, 1, 1, 1, 0⟩ 1 2 0) (GPSUpdate.mk 10 20 0 0) (Or.inl rfl)⟩

/-- Claim C10: GPS::beforeUpdate leaves the GlobalReference anchor (and
everything else) unchanged whenever the GPS has not timed out and the
stored reference pointer already equals the estimator global reference;
the anchor is mutated only on first fix or on reacquisition after a
timeout. -/
theorem gps_beforeUpdate_keeps_anchor_when_reference_held
    (gps : GPSMeas) (est : EstimatorState) (u : GPSUpdate)
    (h : gps.holdsReference = true) :
    GPS.beforeUpdate false gps est u = ⟨gps, est, true⟩ := by
  obtain ⟨b⟩ := gps
  simp only at h
  subst h
  rfl

/-- Witness for C10 at a concrete held-reference input. -/
theorem gps_beforeUpdate_keeps_anchor_when_reference_held_witness :
    (GPSMeas.mk true).holdsReference = true ∧
    GPS.beforeUpdate false (GPSMeas.mk true) (EstimatorState.mk ⟨3, 4, 5, 1, 1, 1, 0⟩ 6 7 8)
        (GPSUpdate.mk 9 10 11 12)
      = ⟨GPSMeas.mk true, EstimatorState.mk ⟨3, 4, 5, 1, 1, 1, 0⟩ 6 7 8, true⟩ :=
  ⟨rfl, gps_beforeUpdate_keeps_anchor_when_reference_held (GPSMeas.mk true)
    (EstimatorState.mk ⟨3, 4, 5, 1, 1, 1, 0⟩ 6 7 8) (GPSUpdate.mk 9 10 11 12) rfl⟩

/-- Fold invariant for height sequences: once the elevation offset has
been solved, the reference altitude and the stored model elevation agree
with it and are never rewritten by later samples. -/
theorem heightStep_preserves (A : ℚ) (s : HeightState) (sample : ℚ × ℚ)
    (h : s.hb.elevationSet = true ∧ s.est.globalRef.altitude = A ∧ s.elevation = A) :
    (heightStep s sample).hb.elevationSet = true ∧
    (heightStep s sample).est.globalRef.altitude = A ∧
    (heightStep s sample).elevation = A := by
  obtain ⟨h1, h2, h3⟩ := h
  simp [heightStep, Height.beforeUpdate, HeightBaroCommon.resetElevation, h1, h2]

/-- Fold invariant extended over any list of later samples. -/
theorem heightFold_preserves (A : ℚ) (samples : List (ℚ × ℚ)) :
    ∀ s : HeightState,
      s.hb.elevationSet = true ∧ s.est.globalRef.altitude = A ∧ s.elevation = A →
      (List.foldl heightStep s samples).hb.elevationSet = true ∧
      (List.foldl heightStep s samples).est.globalRef.altitude = A ∧
      (List.foldl heightStep s samples).elevation = A := by
  induction samples with
  | nil => intro s h; simpa using h
  | cons a l ih =>
      intro s h
      simpa using ih (heightStep s a) (heightStep_preserves A s a h)

/-- Claim C3: with auto-elevation enabled and the elevation not yet
solved (after construction or onReset), the first valid sample r sets the
stored elevation to r minus the predicted state z, so that the predicted
measurement for that state z equals r exactly; every later sample (with
arbitrary raw value and state z) reuses that stored elevation without
changing it, and onReset clears the flag again so a later sample would
re-solve it. -/
theorem height_auto_elevation_first_sample (hb : HeightBaro) (est : EstimatorState)
    (e0 r : ℚ) (samples : List (ℚ × ℚ))
    (ha : hb.auto_elevation = true) (hi : hb.elevationSet = false) :
    (Height.beforeUpdate ⟨hb, est, e0⟩ r).1.elevation = r - est.posZ ∧
    HeightModel.ExpectedValueGet (Height.beforeUpdate ⟨hb, est, e0⟩ r).1.elevation est.posZ
        = r ∧
    (List.foldl heightStep (Height.beforeUpdate ⟨hb, est, e0⟩ r).1 samples).elevation
        = r - est.posZ ∧
    (List.foldl heightStep (Height.beforeUpdate ⟨hb, est, e0⟩ r).1 samples).hb.elevationSet
        = true ∧
    (HeightBaroCommon.onReset
        (List.foldl heightStep (Height.beforeUpdate ⟨hb, est, e0⟩ r).1 samples).hb).elevationSet
        = false := by
  have hfirst : (Height.beforeUpdate ⟨hb, est, e0⟩ r).1.hb.elevationSet = true ∧
      (Height.beforeUpdate ⟨hb, est, e0⟩ r).1.est.globalRef.altitude = r - est.posZ ∧
      (Height.beforeUpdate ⟨hb, est, e0⟩ r).1.elevation = r - est.posZ := by
    simp [Height.beforeUpdate, HeightBaroCommon.resetElevation, hi,
      GlobalReference.setAltitude]
  have hfold := heightFold_preserves (r - est.posZ) samples
    (Height.beforeUpdate ⟨hb, est, e0⟩ r).1 hfirst
  refine ⟨hfirst.2.2, ?_, hfold.2.2, hfold.1, ?_⟩
  · rw [hfirst.2.2]; unfold HeightModel.ExpectedValueGet; ring
  · simp [HeightBaroCommon.onReset]

/-- Witness for C3: raw sample 10 at state z 0 gives elevation 10 and
predicted measurement 10, preserved over two later samples. -/
theorem height_auto_elevation_first_sample_witness :
    (HeightBaro.mk true false).auto_elevation = true ∧
    (HeightBaro.mk true false).elevationSet = false ∧
    ((Height.beforeUpdate ⟨HeightBaro.mk true false,
        EstimatorState.mk ⟨0, 0, 0, 1, 1, 1, 0⟩ 0 0 0, 0⟩ 10).1.elevation = 10 - (0:ℚ) ∧
     HeightModel.ExpectedValueGet
        (Height.beforeUpdate ⟨HeightBaro.mk true false,
          EstimatorState.mk ⟨0, 0, 0, 1, 1, 1, 0⟩ 0 0 0, 0⟩ 10).1.elevation 0 = 10 ∧
     (List.foldl heightStep (Height.beforeUpdate ⟨HeightBaro.mk true false,
          EstimatorState.mk ⟨0, 0, 0, 1, 1, 1, 0⟩ 0 0 0, 0⟩ 10).1
        [(11, 1), (12, 2)]).elevation = 10 - (0:ℚ) ∧
     (List.foldl heightStep (Height.beforeUpdate ⟨HeightBaro.mk true false,
          EstimatorState.mk ⟨0, 0, 0, 1, 1, 1, 0⟩ 0 0 0, 0⟩ 10).1
        [(11, 1), (12, 2)]).hb.elevationSet = true ∧
     (HeightBaroCommon.onReset (List.foldl heightStep
        (Height.beforeUpdate ⟨HeightBaro.mk true false,
          EstimatorState.mk ⟨0, 0, 0, 1, 1, 1, 0⟩ 0 0 0, 0⟩ 10).1
        [(11, 1), (12, 2)]).hb).elevationSet = false) :=
  ⟨rfl, rfl, height_auto_elevation_first_sample (HeightBaro.mk true false)
    (EstimatorState.mk ⟨0, 0, 0, 1, 1, 1, 0⟩ 0 0 0) 0 10 [(11, 1), (12, 2)] rfl rfl⟩

/-- A nonnegative scalar multiple of a positive semidefinite real matrix
is positive semidefinite. -/
theorem posSemidef_smul_of_nonneg {n : ℕ} {c : ℝ} {P : Matrix (Fin n) (Fin n) ℝ}
    (hc : 0 ≤ c) (hP : P.PosSemidef) : (c • P).PosSemidef := by
  constructor
  · show (c • P)ᴴ = c • P
    rw [Matrix.conjTranspose_smul, star_trivial, hP.1]
  · intro x
    rw [Matrix.smul_mulVec_assoc, Matrix.dotProduct_smul]
    exact mul_nonneg hc (hP.2 x)

/-- Conjugation of a positive semidefinite real matrix by any rectangular
matrix is positive semidefinite. -/
theorem posSemidef_mul_mul_transpose {n m : ℕ} {P : Matrix (Fin n) (Fin n) ℝ}
    (hP : P.PosSemidef) (B : Matrix (Fin m) (Fin n) ℝ) : (B * P * Bᵀ).PosSemidef := by
  have h := hP.mul_mul_conjTranspose_same B
  rwa [Matrix.conjTranspose_eq_transpose_of_trivial] at h

/-- The predict-step covariance propagation preserves positive
semidefiniteness. -/
theorem predictCov_posSemidef {n : ℕ} {A P Q : Matrix (Fin n) (Fin n) ℝ} {dt : ℝ}
    (hP : P.PosSemidef) (hQ : Q.PosSemidef) (hdt : 0 ≤ dt) :
    (predictCov A P Q dt).PosSemidef :=
  (posSemidef_mul_mul_transpose hP A).add (posSemidef_smul_of_nonneg hdt hQ)

/-- Joseph-form identity: with an invertible innovation covariance, the
covariance update (I - K C) P equals the manifestly positive semidefinite
form (I - K C) P (I - K C)t + K R Kt. -/
theorem correctCov_joseph {n m : ℕ} (P : Matrix (Fin n) (Fin n) ℝ)
    (C : Matrix (Fin m) (Fin n) ℝ) (R : Matrix (Fin m) (Fin m) ℝ)
    (h : IsUnit (innovationCov P C R).det) :
    (1 - kalmanGain P C R * C) * P
      = (1 - kalmanGain P C R * C) * P * (1 - kalmanGain P C R * C)ᵀ
        + kalmanGain P C R * R * (kalmanGain P C R)ᵀ := by
  set K := kalmanGain P C R with hK
  have hKS : K * innovationCov P C R = P * Cᵀ := by
    rw [hK]
    unfold kalmanGain
    rw [Matrix.mul_assoc, Matrix.nonsing_inv_mul _ h, Matrix.mul_one]
  have hKS2 : K * (C * (P * Cᵀ)) + K * R = P * Cᵀ := by
    have h2 := hKS
    unfold innovationCov at h2
    rw [Matrix.mul_add] at h2
    simp only [Matrix.mul_assoc] at h2
    exact h2
  have hA : (1 - K * C) * (P * Cᵀ) = K * R := by
    rw [Matrix.sub_mul, Matrix.one_mul, sub_eq_iff_eq_add]
    conv_lhs => rw [← hKS2]
    simp only [Matrix.mul_assoc]
    abel
  have hB : (1 - K * C) * P * (Cᵀ * Kᵀ) = K * R * Kᵀ := by
    rw [← Matrix.mul_assoc, Matrix.mul_assoc (1 - K * C) P Cᵀ, hA]
  rw [Matrix.transpose_sub, Matrix.transpose_one, Matrix.transpose_mul,
    Matrix.mul_sub, Matrix.mul_one, hB]
  abel

/-- The correct-step covariance update preserves positive
semidefiniteness (through the Joseph form when the innovation covariance
is invertible, trivially when the correction is skipped). -/
theorem correctCov_posSemidef {n m : ℕ} {P : Matrix (Fin n) (Fin n) ℝ}
    {C : Matrix (Fin m) (Fin n) ℝ} {R : Matrix (Fin m) (Fin m) ℝ}
    (hP : P.PosSemidef) (hR : R.PosSemidef) : (correctCov P C R).PosSemidef := by
  unfold correctCov
  split
  case isTrue h =>
    rw [correctCov_joseph P C R h]
    exact (posSemidef_mul_mul_transpose hP (1 - kalmanGain P C R * C)).add
      (posSemidef_mul_mul_transpose hR (kalmanGain P C R))
  case isFalse h => exact hP

/-- Claim C8: for every sequence of predict and correct calls (with
positive semidefinite process and measurement noise, nonnegative time
steps and nonzero raw quaternions), starting from a positive semidefinite
covariance and a unit quaternion, the state covariance remains positive
semidefinite and symmetric and the orientation quaternion has unit norm
after every step. -/
theorem ekf_covariance_psd_quaternion_unit {n m : ℕ} (steps : List (FilterStep n m))
    (P0 : Matrix (Fin n) (Fin n) ℝ) (q0 : Quaternion ℝ)
    (hP0 : P0.PosSemidef) (hq0 : ‖q0‖ = 1)
    (hsteps : ∀ s ∈ steps, stepOK s) :
    (runFilter steps (P0, q0)).1.PosSemidef ∧
    (runFilter steps (P0, q0)).1ᵀ = (runFilter steps (P0, q0)).1 ∧
    ‖(runFilter steps (P0, q0)).2‖ = 1 := by
  have main : (runFilter steps (P0, q0)).1.PosSemidef ∧ ‖(runFilter steps (P0, q0)).2‖ = 1 := by
    induction steps generalizing P0 q0 with
    | nil => exact ⟨hP0, hq0⟩
    | cons s l ih =>
        have hs := hsteps s (List.mem_cons_self s l)
        have hrest : ∀ x ∈ l, stepOK x := fun x hx => hsteps x (List.mem_cons_of_mem s hx)
        have happly : (applyStep (P0, q0) s).1.PosSemidef ∧ ‖(applyStep (P0, q0) s).2‖ = 1 := by
          cases s with
          | predict A Q dt qraw =>
              obtain ⟨hQ, hdt, hqr⟩ := hs
              exact ⟨predictCov_posSemidef hP0 hQ hdt, norm_smul_inv_norm hqr⟩
          | correct C R qraw =>
              obtain ⟨hR, hqr⟩ := hs
              exact ⟨correctCov_posSemidef hP0 hR, norm_smul_inv_norm hqr⟩
        have hrun : runFilter (s :: l) (P0, q0) = runFilter l (applyStep (P0, q0) s) := rfl
        rw [hrun]
        have hind := ih (applyStep (P0, q0) s).1 (applyStep (P0, q0) s).2 happly.1 happly.2 hrest
        simpa using hind
  refine ⟨main.1, ?_, main.2⟩
  have h := main.1.1
  rw [Matrix.IsHermitian, Matrix.conjTranspose_eq_transpose_of_trivial] at h
  exact h

/-- Witness for C8: one predict step with identity Jacobian, zero process
noise, zero time step and raw quaternion one, from the identity
covariance and quaternion one. -/
theorem ekf_covariance_psd_quaternion_unit_witness :
    (1 : Matrix (Fin 1) (Fin 1) ℝ).PosSemidef ∧
    ‖(1 : Quaternion ℝ)‖ = 1 ∧
    (∀ s ∈ ([FilterStep.predict 1 0 0 1] : List (FilterStep 1 1)), stepOK s) ∧
    ((runFilter ([FilterStep.predict 1 0 0 1] : List (FilterStep 1 1)) (1, 1)).1.PosSemidef ∧
     (runFilter ([FilterStep.predict 1 0 0 1] : List (FilterStep 1 1)) (1, 1)).1ᵀ
        = (runFilter ([FilterStep.predict 1 0 0 1] : List (FilterStep 1 1)) (1, 1)).1 ∧
     ‖(runFilter ([FilterStep.predict 1 0 0 1] : List (FilterStep 1 1)) (1, 1)).2‖ = 1) := by
  have h1 : (1 : Matrix (Fin 1) (Fin 1) ℝ).PosSemidef := Matrix.PosSemidef.one
  have h2 : ‖(1 : Quaternion ℝ)‖ = 1 := norm_one
  have h3 : ∀ s ∈ ([FilterStep.predict 1 0 0 1] : List (FilterStep 1 1)), stepOK s := by
    intro s hs
    simp only [List.mem_singleton] at hs
    subst hs
    exact ⟨Matrix.PosSemidef.zero, le_refl 0, one_ne_zero⟩
  exact ⟨h1, h2, h3,
    ekf_covariance_psd_quaternion_unit ([FilterStep.predict 1 0 0 1] : List (FilterStep 1 1))
      1 1 h1 h2 h3⟩
